import Mathlib

/-!
# Verification of kube-burner template helpers and the service-latency measurement

Shallow embedding of:
* `pkg/util` template helpers (`GetSubnet24`, `GetIPAddress`, `RenderTemplate`),
* `pkg/measurements/service_latency.go` (`handleCreateSvc`, the metrics map,
  `index`), and
* `pkg/burner` (`IndexJobSummary`).

Machine integers are modelled as `Nat`/`Int` with explicit `% 256` where the Go
code truncates through `byte(...)` casts. Network and clock effects are passed
in explicitly (ping results, wait results, durations), so every definition is
executable.
-/

set_option autoImplicit false

namespace KubeBurner

/-! ## Template helpers (`pkg/util`, `src/unnamed/part_002`) -/

/--
Embedding of `GetSubnet24`:
```
funcMap["GetSubnet24"] = func(subnetIdx int) string {
  return netip.AddrFrom4([4]byte{byte(subnetIdx>>16 + 1), byte(subnetIdx >> 8), byte(subnetIdx), 0}).String() + "/24"
}
```
Go's `byte(x)` truncates to the low 8 bits (`x % 256`; the shift `>>` binds
tighter than `+`, so the first octet is `byte((subnetIdx>>16) + 1)`), and
`netip.Addr.String` prints the four octets in decimal separated by dots. The
index is taken as a `Nat` (non-negative, as in the claim).
-/
def GetSubnet24 (subnetIdx : Nat) : String :=
  toString ((subnetIdx >>> 16 + 1) % 256) ++ "." ++
    toString ((subnetIdx >>> 8) % 256) ++ "." ++
    toString (subnetIdx % 256) ++ ".0/24"

/--
The formula stated by the spec sentence
"subnetFor24(i) → (i>>16+1).(i>>8).i.0/24", written from the spec words,
without any truncation of the octets.
-/
def subnet24Claim (i : Nat) : String :=
  toString (i >>> 16 + 1) ++ "." ++ toString (i >>> 8) ++ "." ++
    toString i ++ ".0/24"

/--
Accumulating worker for `stringsSplit`: `cur` holds the characters of the
current field in reverse order.
-/
def stringsSplitAux (sep : Char) (cur : List Char) : List Char → List String
  | [] => [String.mk cur.reverse]
  | c :: cs =>
    if c = sep then String.mk cur.reverse :: stringsSplitAux sep [] cs
    else stringsSplitAux sep (c :: cur) cs

/--
Go's `strings.Split(s, sep)` for a one-character separator: splits around every
occurrence of `sep`; the empty string yields one empty field, as in Go.
-/
def stringsSplit (sep : Char) (s : String) : List String :=
  stringsSplitAux sep [] s.data

/--
The indexing loop of `GetIPAddress`:
```
for i := 0; i < addressesPerIteration; i++ {
  retAddrs = append(retAddrs, addrSlice[(iteration*addressesPerIteration)+i])
}
```
`idx` is the next index to read (`iteration*addressesPerIteration + i`) and `k`
the number of reads still to perform. An out-of-range slice access (a Go panic)
is modelled as `none`.
-/
def collectAddrs (l : List String) : Nat → Nat → Option (List String)
  | _, 0 => some []
  | idx, k + 1 =>
    match l[idx]? with
    | none => none
    | some a => (collectAddrs l (idx + 1) k).map (fun r => a :: r)

/--
Embedding of `GetIPAddress`:
```
funcMap["GetIPAddress"] = func(Addresses string, iteration int, addressesPerIteration int) string {
  var retAddrs []string
  addrSlice := strings.Split(Addresses, " ")
  for i := 0; i < addressesPerIteration; i++ {
    retAddrs = append(retAddrs, addrSlice[(iteration*addressesPerIteration)+i])
  }
  return strings.Join(retAddrs, " ")
}
```
`strings.Split(Addresses, " ")` is `stringsSplit ' '`; `strings.Join` is
`String.intercalate " "`. A panic from the slice access surfaces as `none`.
-/
def GetIPAddress (addresses : String) (iteration addressesPerIteration : Nat) :
    Option String :=
  let addrSlice := stringsSplit ' ' addresses
  (collectAddrs addrSlice (iteration * addressesPerIteration)
      addressesPerIteration).map (String.intercalate " ")

/--
Embedding of the `templateOption` constants of `pkg/util`:
`MissingKeyError templateOption = "missingkey=error"` and
`MissingKeyZero templateOption = "missingkey=zero"`.
-/
inductive templateOption where
  | MissingKeyError
  | MissingKeyZero
  deriving DecidableEq

/--
Modelled from the spec: a parsed template is a sequence of literal text pieces
and `\x7b\x7b .KEY \x7d\x7d` field references (the engine itself is Go's
`text/template`, which is not part of this repository's sources; the spec
describes it as substitution of keys from the input data under one of the two
missing-key policies).
-/
inductive TemplateNode where
  | text (s : String)
  | field (key : String)
  deriving DecidableEq

/--
Splits a character list around every non-overlapping occurrence of the
two-character separator `c1 c2`, leftmost first — the behaviour of Go's
`strings.Split` for a two-byte separator, used to cut a template at `\x7b\x7b`
and `\x7d\x7d` delimiters. `cur` carries the current piece reversed.
-/
def splitPair (c1 c2 : Char) (cur : List Char) : List Char → List (List Char)
  | [] => [cur.reverse]
  | [c] => [(c :: cur).reverse]
  | c :: cp :: cs =>
    if c = c1 ∧ cp = c2 then cur.reverse :: splitPair c1 c2 [] cs
    else splitPair c1 c2 (c :: cur) (cp :: cs)

/-- Removes leading and trailing spaces, as `strings.TrimSpace` does. -/
def trimSpaces (l : List Char) : List Char :=
  ((l.dropWhile (fun c => c = ' ')).reverse.dropWhile (fun c => c = ' ')).reverse

/--
Modelled from the spec: parses one chunk that follows an opening `\x7b\x7b`.
The chunk must contain a closing `\x7d\x7d`; the part before it must be a
field reference `.KEY` (surrounding spaces allowed); the part after it is
literal text. Anything else is a parse error, as `text/template.Parse`
rejects malformed actions.
-/
def parseActionChunk (chunk : List Char) : Except String (List TemplateNode) :=
  match splitPair '\x7d' '\x7d' [] chunk with
  | [] => Except.error "empty chunk"
  | [_] => Except.error "unclosed action"
  | act :: t :: ts =>
    match trimSpaces act with
    | '.' :: c :: key =>
      Except.ok [TemplateNode.field (String.mk (c :: key)),
        TemplateNode.text (String.mk (List.intercalate ['\x7d', '\x7d'] (t :: ts)))]
    | _ => Except.error "bad action"

/--
Modelled from the spec: `text/template.Parse` over the fragment of the
template language the spec describes (literal text and field substitutions).
-/
def parseTemplate (original : String) : Except String (List TemplateNode) :=
  match splitPair '\x7b' '\x7b' [] original.data with
  | [] => Except.ok []
  | first :: rest =>
    match rest.mapM parseActionChunk with
    | Except.error e => Except.error e
    | Except.ok nodes => Except.ok (TemplateNode.text (String.mk first) :: nodes.flatten)

/-- Association lookup in a string-keyed map (used for the template input
data and for the metrics map). -/
def lookupKey {α : Type} : List (String × α) → String → Option α
  | [], _ => none
  | p :: ps, k => if p.1 = k then some p.2 else lookupKey ps k

/--
Modelled from the spec: `text/template.Execute` — concatenates literal text
and substituted values. A key absent from the data is an error under
`missingkey=error` and is substituted by the zero value (the empty string)
under `missingkey=zero`.
-/
def executeTemplate (policy : templateOption) (data : List (String × String)) :
    List TemplateNode → Except String String
  | [] => Except.ok ""
  | TemplateNode.text s :: rest =>
    (executeTemplate policy data rest).map (fun r => s ++ r)
  | TemplateNode.field k :: rest =>
    match lookupKey data k with
    | some v => (executeTemplate policy data rest).map (fun r => v ++ r)
    | none =>
      match policy with
      | templateOption.MissingKeyError =>
        Except.error ("map has no entry for key " ++ k)
      | templateOption.MissingKeyZero =>
        (executeTemplate policy data rest).map (fun r => "" ++ r)

/--
Embedding of `RenderTemplate` (`pkg/util`):
```
func RenderTemplate(original []byte, inputData interface{}, options templateOption) ([]byte, error) {
  var rendered bytes.Buffer
  t, err := template.New("").Option(string(options)).Funcs(funcMap).Parse(string(original))
  if err != nil { return nil, fmt.Errorf("parsing error: %s", err) }
  err = t.Execute(&rendered, inputData)
  if err != nil { return nil, fmt.Errorf("rendering error: %s", err) }
  return rendered.Bytes(), nil
}
```
-/
def RenderTemplate (original : String) (inputData : List (String × String))
    (options : templateOption) : Except String String :=
  match parseTemplate original with
  | Except.error e => Except.error ("parsing error: " ++ e)
  | Except.ok t =>
    match executeTemplate options inputData t with
    | Except.error e => Except.error ("rendering error: " ++ e)
    | Except.ok rendered => Except.ok rendered

/-! ## Service latency measurement (`pkg/measurements/service_latency.go`) -/

/-- The constant `svcLatencyMetric = "svcLatencyMeasurement"`. -/
def svcLatencyMetric : String := "svcLatencyMeasurement"

/-- The constant `svcLatencyQuantilesMeasurement`. -/
def svcLatencyQuantilesMeasurement : String := "svcLatencyQuantilesMeasurement"

/-- The constant `jobSummaryMetric = "jobSummary"` of `pkg/burner`. -/
def jobSummaryMetric : String := "jobSummary"

/-- One entry of `svc.Status.LoadBalancer.Ingress`: an IP and a hostname. -/
structure LoadBalancerIngress where
  ip : String
  hostname : String
  deriving DecidableEq

/--
One entry of `svc.Spec.Ports`. `Protocol` is the protocol string ("TCP",
"UDP", ...); the ports are Go `int32` values, carried as `Int` (no arithmetic
is performed on them, so overflow plays no role).
-/
structure ServicePort where
  protocol : String
  port : Int
  nodePort : Int
  deriving DecidableEq

/-- The parts of `svc.Spec` read by `handleCreateSvc`. -/
structure ServiceSpec where
  type : String
  clusterIP : String
  clusterIPs : List String
  ports : List ServicePort
  deriving DecidableEq

/-- The parts of a `corev1.Service` read by the measurement. `ns` is the
object's namespace; `ingress` is `svc.Status.LoadBalancer.Ingress`. -/
structure Service where
  uid : String
  name : String
  ns : String
  creationTimestamp : Nat
  spec : ServiceSpec
  ingress : List LoadBalancerIngress
  deriving DecidableEq

/--
Embedding of `svcMetric`. `JobConfig`, `UUID` and `Metadata` are copied
verbatim from the process-wide configuration, independent of the service, and
are therefore not modelled; durations are `Nat` time units.
-/
structure SvcMetric where
  timestamp : Nat
  ipAssignedLatency : Nat
  readyLatency : Nat
  metricName : String
  ns : String
  name : String
  serviceType : String
  deriving DecidableEq

/--
The `LoadBalancer` arm of the `switch` in `handleCreateSvc`:
```
for _, ingress := range svc.Status.LoadBalancer.Ingress {
  if ingress.IP != "" {
    ips = append(ips, ingress.Hostname)
  } else {
    ips = append(ips, ingress.IP)
  }
}
```
(the list of appended targets, in order).
-/
def resolveIngressTargets : List LoadBalancerIngress → List String
  | [] => []
  | ing :: rest =>
    (if ing.ip ≠ "" then ing.hostname else ing.ip) :: resolveIngressTargets rest

/--
The resolution the claim states and the spec marks as the intent: prefer the
entry's IP when it is non-empty and fall back to its hostname otherwise.
-/
def resolveIngressTargetsIntent : List LoadBalancerIngress → List String
  | [] => []
  | ing :: rest =>
    (if ing.ip ≠ "" then ing.ip else ing.hostname) :: resolveIngressTargetsIntent rest

/--
The I/O environment of the probe goroutine. `hostIP` is
`svcLatencyChecker.Pod.Status.HostIP`; `checkerDur` the time spent in
`NewSvcLatencyChecker` (a creation error is merely logged and execution
continues, so it does not change the control flow modelled here);
`pingResult target port` is `some d` when the TCP connect from the probe pod
succeeds after `d` time units and `none` when it keeps failing until
`svcTimeout` elapses (`Ping` returns an error).
-/
structure PingEnv where
  hostIP : String
  checkerDur : Nat
  pingResult : String → Int → Option Nat

/--
Results of the two polling waits of the goroutine, `waitForIngress` and
`waitForEndpoints`: `Except.ok d` when the wait succeeded after `d` time
units, `Except.error e` when the poll returned an error.
-/
structure WaitEnv where
  ingressWait : Except String Nat
  endpointsWait : Except String Nat

/--
Early exits of the ports loop: `unsupported` is the `default:` arm
(`log.Warnf` + `return`) and `pingFailed` a failed `Ping`
(`log.Error(err)` + `return`), carrying the probes attempted so far with the
failed one last.
-/
inductive ProbeExit where
  | unsupported
  | pingFailed (attempts : List (String × Int))
  deriving DecidableEq

/--
The inner loop
```
for _, ip := range ips {
  err = svcLatencyChecker.Ping(ip, port, s.config.ServiceTimeout)
  if err != nil { log.Error(err); return }
}
```
returning the total connect time and the `(target, port)` probes attempted, or
— on a failed ping — the attempts up to and including the failing one.
-/
def pingList (env : PingEnv) (port : Int) :
    List String → Except (List (String × Int)) (Nat × List (String × Int))
  | [] => Except.ok (0, [])
  | ip :: rest =>
    match env.pingResult ip port with
    | none => Except.error [(ip, port)]
    | some d =>
      match pingList env port rest with
      | Except.error atts => Except.error ((ip, port) :: atts)
      | Except.ok (dur, atts) => Except.ok (d + dur, (ip, port) :: atts)

/--
The `switch svc.Spec.Type` arms selecting probe targets and port; `none` is
the unsupported `default:` arm. The source APPENDS the LoadBalancer targets to
the `ips` slice declared OUTSIDE the ports loop, so for a multi-port
LoadBalancer the targets accumulate across ports — `ips` is that slice.
-/
def switchPortTargets (env : PingEnv) (svc : Service) (sp : ServicePort)
    (ips : List String) : Option (List String × Int) :=
  if svc.spec.type = "ClusterIP" then some (svc.spec.clusterIPs, sp.port)
  else if svc.spec.type = "NodePort" then some ([env.hostIP], sp.nodePort)
  else if svc.spec.type = "LoadBalancer" then
    some (ips ++ resolveIngressTargets svc.ingress, sp.port)
  else none

/--
The loop `for _, specPort := range svc.Spec.Ports` with its
`if specPort.Protocol == corev1.ProtocolTCP` guard. On success returns the
total ping time and all attempted probes in order.
-/
def portsLoop (env : PingEnv) (svc : Service) :
    List ServicePort → List String → Except ProbeExit (Nat × List (String × Int))
  | [], _ => Except.ok (0, [])
  | sp :: rest, ips =>
    if sp.protocol = "TCP" then
      match switchPortTargets env svc sp ips with
      | none => Except.error ProbeExit.unsupported
      | some (ips2, port) =>
        match pingList env port ips2 with
        | Except.error atts => Except.error (ProbeExit.pingFailed atts)
        | Except.ok (d, atts) =>
          match portsLoop env svc rest ips2 with
          | Except.error ProbeExit.unsupported => Except.error ProbeExit.unsupported
          | Except.error (ProbeExit.pingFailed atts2) =>
            Except.error (ProbeExit.pingFailed (atts ++ atts2))
          | Except.ok (d2, atts2) => Except.ok (d + d2, atts ++ atts2)
    else portsLoop env svc rest ips

/--
Outcome of the goroutine spawned by `handleCreateSvc`: `fatal` is
`log.Fatal`, which terminates the entire process; `skipped` is an early
`return` — the goroutine ends without touching the metrics map; `recorded m`
is the store `s.metrics[string(svc.UID)] = m`.
-/
inductive SvcOutcome where
  | fatal (msg : String)
  | skipped
  | recorded (m : SvcMetric)
  deriving DecidableEq

/--
Embedding of the goroutine body of `handleCreateSvc`. Time is an explicit
counter: `ipAssignedLatency = time.Since(now)` is the ingress-wait duration
(zero for non-LoadBalancer services); `endpointsReadyTs` is taken after the
endpoints wait; `svcLatency = time.Since(endpointsReadyTs)` is the checker
creation time plus the total ping time. Returns the outcome together with the
TCP probes attempted.
-/
def handleCreateSvcModel (env : PingEnv) (w : WaitEnv) (svc : Service) :
    SvcOutcome × List (String × Int) :=
  let ingressStep : Except String Nat :=
    if svc.spec.type = "LoadBalancer" then w.ingressWait else Except.ok 0
  match ingressStep with
  | Except.error e => (SvcOutcome.fatal e, [])
  | Except.ok ipAssignedLatency =>
    match w.endpointsWait with
    | Except.error e => (SvcOutcome.fatal e, [])
    | Except.ok _ =>
      match portsLoop env svc svc.spec.ports [] with
      | Except.error ProbeExit.unsupported => (SvcOutcome.skipped, [])
      | Except.error (ProbeExit.pingFailed atts) => (SvcOutcome.skipped, atts)
      | Except.ok (pingDur, atts) =>
        (SvcOutcome.recorded
          { timestamp := svc.creationTimestamp
            ipAssignedLatency := ipAssignedLatency
            readyLatency := env.checkerDur + pingDur
            metricName := svcLatencyMetric
            ns := svc.ns
            name := svc.name
            serviceType := svc.spec.type }, atts)

/--
Written from the words of the claim about `ReadyLatency`: the elapsed time
from `endpointsReadyTs` to the FIRST successful TCP connect — the checker
creation time plus the duration of the first probe of the first TCP port.
-/
def firstConnectElapsed (env : PingEnv) (svc : Service) : Option Nat :=
  match svc.spec.ports.find? (fun sp => decide (sp.protocol = "TCP")) with
  | none => none
  | some sp =>
    match switchPortTargets env svc sp [] with
    | none => none
    | some ([], _) => none
    | some (ip :: _, port) =>
      (env.pingResult ip port).map (fun d => env.checkerDur + d)

/--
Go map assignment `s.metrics[uid] = v` on an association-list model of the
map: replaces the entry when the key is already present, appends a new entry
otherwise.
-/
def storeMetric (m : List (String × SvcMetric)) (uid : String) (v : SvcMetric) :
    List (String × SvcMetric) :=
  if m.any (fun p => decide (p.1 = uid)) then
    m.map (fun p => if p.1 = uid then (p.1, v) else p)
  else m ++ [(uid, v)]

/--
A sequence of completed `handleCreateSvc` goroutines applied to the metrics
map in completion order: each stores its metric under `string(svc.UID)`.
-/
def storeAll (init : List (String × SvcMetric)) :
    List (Service × SvcMetric) → List (String × SvcMetric)
  | [] => init
  | p :: ps => storeAll (storeMetric init p.1.uid p.2) ps

/-- Log levels of the logger; `fatal` terminates the process. -/
inductive LogLevel where
  | debug
  | info
  | warn
  | error
  | fatal
  deriving DecidableEq

/-- One emitted log line. -/
structure LogEntry where
  level : LogLevel
  msg : String
  deriving DecidableEq

/--
The fields of `serviceLatency` that `index` reads: the normalised per-sample
documents, the quantile documents (both opaque here) and whether the
configuration restricts indexing to quantiles
(`s.config.ServiceLatencyMetrics == types.Quantiles`, which deletes the
per-sample entry from the metric map).
-/
structure ServiceLatencyState where
  normLatencies : List String
  latencyQuantiles : List String
  quantilesOnly : Bool
  deriving DecidableEq

/--
Embedding of `(*serviceLatency).index`: builds the metric map, removes the
per-sample entry when only quantiles are requested, and calls
`(*factory.indexer).Index` for each entry, logging the error on failure
(`log.Error`) and the response on success (`log.Info`). The function assigns
to no field of `s` and returns no error; the model returns the unchanged
state together with the log.
-/
def serviceLatencyIndex (indexer : List String → String → Except String String)
    (s : ServiceLatencyState) : ServiceLatencyState × List LogEntry :=
  let metricMap :=
    if s.quantilesOnly then
      [(svcLatencyQuantilesMeasurement, s.latencyQuantiles)]
    else
      [(svcLatencyMetric, s.normLatencies),
        (svcLatencyQuantilesMeasurement, s.latencyQuantiles)]
  (s, metricMap.map (fun p =>
    match indexer p.2 p.1 with
    | Except.error e => LogEntry.mk LogLevel.error e
    | Except.ok resp => LogEntry.mk LogLevel.info resp))

/--
Embedding of `IndexJobSummary` (`pkg/burner`): logs an info line, calls
`indexer.Index` once with all job summaries (opaque documents here), logs the
error on failure and the response on success, and returns nothing.
-/
def IndexJobSummary (jobSummaries : List String)
    (indexer : List String → String → Except String String) : List LogEntry :=
  LogEntry.mk LogLevel.info "Indexing job summaries" ::
    (match indexer jobSummaries jobSummaryMetric with
     | Except.error e => [LogEntry.mk LogLevel.error e]
     | Except.ok resp => [LogEntry.mk LogLevel.info resp])

/-- A concrete metric value, used to instantiate theorems on the metrics map. -/
def sampleMetric (n : Nat) : SvcMetric :=
  { timestamp := n, ipAssignedLatency := 0, readyLatency := 0,
    metricName := svcLatencyMetric, ns := "ns", name := "svc",
    serviceType := "ClusterIP" }

/-- A concrete service value, used to instantiate theorems on the metrics map. -/
def sampleService (uid : String) : Service :=
  { uid := uid, name := "svc", ns := "ns", creationTimestamp := 0,
    spec := { type := "ClusterIP", clusterIP := "10.96.0.8",
              clusterIPs := ["10.96.0.8"],
              ports := [{ protocol := "TCP", port := 80, nodePort := 0 }] },
    ingress := [] }

theorem collectAddrs_ok (l : List String) :
    ∀ k idx, idx + k ≤ l.length →
      collectAddrs l idx k = some ((l.drop idx).take k) := by
  intro k
  induction k with
  | zero => intro idx _; simp [collectAddrs]
  | succ n ih =>
    intro idx h
    have hidx : idx < l.length := by omega
    have hget : l[idx]? = some l[idx] := List.getElem?_eq_getElem hidx
    have hrec := ih (idx + 1) (by omega)
    simp [collectAddrs, hget, hrec]
    rw [List.drop_eq_getElem_cons hidx, List.take_succ_cons]

theorem collectAddrs_oob (l : List String) :
    ∀ k idx, l.length < idx + k → 1 ≤ k → collectAddrs l idx k = none := by
  intro k
  induction k with
  | zero => intro idx _ h1; omega
  | succ n ih =>
    intro idx h _
    by_cases hidx : idx < l.length
    · have hget : l[idx]? = some l[idx] := List.getElem?_eq_getElem hidx
      have hn : 1 ≤ n := by omega
      have hrec := ih (idx + 1) (by omega) hn
      simp [collectAddrs, hget, hrec]
    · have hget : l[idx]? = none := List.getElem?_eq_none (by omega)
      simp [collectAddrs, hget]

/--
C6 counterexample: at `i = 256` the code returns `"1.1.0.0/24"` (the third
octet is `byte(256) = 0`), while the claimed formula `"(i>>16+1).(i>>8).i.0/24"`
gives `"1.1.256.0/24"`; the two differ, so the claim does not hold for every
non-negative `i`.
-/
theorem getSubnet24_truncation_counterexample :
    GetSubnet24 256 = "1.1.0.0/24" ∧ subnet24Claim 256 = "1.1.256.0/24" ∧
      GetSubnet24 256 ≠ subnet24Claim 256 := by
  refine ⟨by decide, by decide, by decide⟩

/--
C6 (amended): `GetSubnet24 i` is the dotted string whose octets are
`((i>>16)+1) mod 256`, `(i>>8) mod 256` and `i mod 256` followed by `.0/24`;
the claim's untruncated formula holds for `i < 256`.
-/
theorem getSubnet24_octets (i : Nat) :
    GetSubnet24 i =
      toString ((i >>> 16 + 1) % 256) ++ "." ++ toString ((i >>> 8) % 256) ++
        "." ++ toString (i % 256) ++ ".0/24"
    ∧ (i < 256 → GetSubnet24 i = subnet24Claim i) := by
  constructor
  · rfl
  · intro h
    have h16 : i >>> 16 = 0 := by
      rw [Nat.shiftRight_eq_div_pow]
      exact Nat.div_eq_of_lt (by omega)
    have h8 : i >>> 8 = 0 := by
      rw [Nat.shiftRight_eq_div_pow]
      exact Nat.div_eq_of_lt (by omega)
    simp [GetSubnet24, subnet24Claim, h16, h8, Nat.mod_eq_of_lt h]

/-- C6 witness: the amended claim evaluated at the concrete index `7`. -/
theorem getSubnet24_octets_witness :
    GetSubnet24 7 = subnet24Claim 7 ∧ GetSubnet24 7 = "1.0.7.0/24" :=
  ⟨(getSubnet24_octets 7).2 (by decide), by decide⟩

/--
C10: when `(i+1)*n` does not exceed the number of space-separated fields,
`GetIPAddress` returns the `n` addresses at indices `i*n` through
`(i+1)*n - 1` joined by single spaces, with every slice access in bounds;
when the field list is shorter than `(i+1)*n`, the slice access is out of
range (a Go panic, modelled as `none`).
-/
theorem getIPAddress_slice (addresses : String) (i n : Nat) :
    ((i + 1) * n ≤ (stringsSplit ' ' addresses).length →
      GetIPAddress addresses i n =
        some (String.intercalate " "
          (((stringsSplit ' ' addresses).drop (i * n)).take n)))
    ∧ ((stringsSplit ' ' addresses).length < (i + 1) * n →
      GetIPAddress addresses i n = none) := by
  constructor
  · intro h
    rw [Nat.succ_mul] at h
    have hc := collectAddrs_ok (stringsSplit ' ' addresses) n (i * n) h
    simp [GetIPAddress, hc]
  · intro h
    rw [Nat.succ_mul] at h
    match n, h with
    | n + 1, h =>
      have hc := collectAddrs_oob (stringsSplit ' ' addresses) (n + 1)
        (i * (n + 1)) h (by omega)
      simp [GetIPAddress, hc]

/--
C10 witness: with four addresses, iteration 1 and two addresses per iteration
the helper returns the third and fourth address; with only two addresses the
access is out of range.
-/
theorem getIPAddress_slice_witness :
    GetIPAddress "a b c d" 1 2 = some "c d" ∧ GetIPAddress "a b" 1 2 = none := by
  constructor
  · have h := (getIPAddress_slice "a b c d" 1 2).1 (by decide)
    rw [h]
    decide
  · exact (getIPAddress_slice "a b" 1 2).2 (by decide)

/--
C1: the source resolves a LoadBalancer ingress entry with a NON-EMPTY IP to
its hostname, and an entry with an empty IP to that empty IP — the two
branches are swapped with respect to the claimed (and spec-stated) intent of
preferring the IP and falling back to the hostname, as the intent-following
resolution shows on the same inputs.
-/
theorem resolveIngressTargets_swapped :
    resolveIngressTargets [LoadBalancerIngress.mk "10.0.0.1" "lb.example.com"]
        = ["lb.example.com"]
    ∧ resolveIngressTargetsIntent [LoadBalancerIngress.mk "10.0.0.1" "lb.example.com"]
        = ["10.0.0.1"]
    ∧ resolveIngressTargets [LoadBalancerIngress.mk "" "lb.example.com"] = [""]
    ∧ resolveIngressTargetsIntent [LoadBalancerIngress.mk "" "lb.example.com"]
        = ["lb.example.com"] := by
  refine ⟨rfl, rfl, rfl, rfl⟩

/--
C2 counterexample: for a LoadBalancer service whose ingress wait returns an
error, the goroutine calls `log.Fatal(err)`, which terminates the whole
process — contradicting the claim that a failure while waiting for
load-balancer ingress only logs and skips the sample without aborting.
-/
theorem handleCreateSvc_wait_fatal_counterexample :
    handleCreateSvcModel
        ⟨"192.168.0.9", 0, fun _ _ => none⟩
        ⟨Except.error "context canceled", Except.ok 0⟩
        ⟨"uid-1", "svc-1", "ns-1", 0,
          ⟨"LoadBalancer", "10.96.0.5", ["10.96.0.5"], [⟨"TCP", 80, 30080⟩]⟩,
          [⟨"", "lb.example.com"⟩]⟩
      = (SvcOutcome.fatal "context canceled", []) := by
  rfl

/--
C2 (amended): a failed TCP connect probe is logged and the sample skipped —
the goroutine returns without touching the metrics map and without aborting
anything — but a failure of the load-balancer ingress wait or of the
endpoints wait is handed to `log.Fatal`, which aborts the process.
-/
theorem handleCreateSvc_failure_semantics (env : PingEnv) (w : WaitEnv)
    (svc : Service) :
    (∀ atts a b,
      (if svc.spec.type = "LoadBalancer" then w.ingressWait else Except.ok 0)
          = Except.ok a →
      w.endpointsWait = Except.ok b →
      portsLoop env svc svc.spec.ports [] = Except.error (ProbeExit.pingFailed atts) →
      handleCreateSvcModel env w svc = (SvcOutcome.skipped, atts))
    ∧ (∀ e, svc.spec.type = "LoadBalancer" → w.ingressWait = Except.error e →
      handleCreateSvcModel env w svc = (SvcOutcome.fatal e, []))
    ∧ (∀ e a,
      (if svc.spec.type = "LoadBalancer" then w.ingressWait else Except.ok 0)
          = Except.ok a →
      w.endpointsWait = Except.error e →
      handleCreateSvcModel env w svc = (SvcOutcome.fatal e, [])) := by
  refine ⟨?_, ?_, ?_⟩
  · intro atts a b h1 h2 h3
    simp only [handleCreateSvcModel, h1, h2, h3]
  · intro e hty he
    simp only [handleCreateSvcModel, hty, if_pos, he]
  · intro e a h1 h2
    simp only [handleCreateSvcModel, h1, h2]

/--
C2 witness: a concrete ClusterIP service whose single probe fails is skipped
without any fatal outcome.
-/
theorem handleCreateSvc_failure_semantics_witness :
    handleCreateSvcModel
        ⟨"192.168.0.9", 0, fun _ _ => none⟩ ⟨Except.ok 0, Except.ok 0⟩
        ⟨"uid-2", "svc-2", "ns-2", 0,
          ⟨"ClusterIP", "10.96.0.5", ["10.96.0.5"], [⟨"TCP", 80, 0⟩]⟩, []⟩
      = (SvcOutcome.skipped, [("10.96.0.5", 80)]) :=
  (handleCreateSvc_failure_semantics _ _ _).1 [("10.96.0.5", 80)] 0 0 rfl rfl rfl

/--
C3 counterexample: a headless service (`spec.clusterIP = "None"`) IS probed:
the goroutine attempts a TCP connect to the literal string "None" (the list of
attempted probes is non-empty), so the claim that no TCP probe is performed
for headless services is false — this code version has no headless
special-case.
-/
theorem handleCreateSvc_headless_counterexample :
    (handleCreateSvcModel ⟨"192.168.0.9", 0, fun _ _ => none⟩
        ⟨Except.ok 0, Except.ok 0⟩
        ⟨"uid-3", "headless", "ns-3", 0,
          ⟨"ClusterIP", "None", ["None"], [⟨"TCP", 8080, 0⟩]⟩, []⟩).2
      = [("None", 8080)]
    ∧ ([("None", 8080)] : List (String × Int)) ≠ [] := by
  exact ⟨rfl, by decide⟩

/--
C3 (amended): `handleCreateSvc` has no headless special case — for a headless
service (clusterIP "None", so `spec.clusterIPs = ["None"]`) with a TCP port it
probes the literal target "None"; since that connect fails, the goroutine
returns early and no sample is recorded.
-/
theorem handleCreateSvc_headless (env : PingEnv) (w : WaitEnv) (svc : Service)
    (p : ServicePort) (b : Nat)
    (_hcip : svc.spec.clusterIP = "None")
    (hty : svc.spec.type = "ClusterIP")
    (hips : svc.spec.clusterIPs = ["None"])
    (hports : svc.spec.ports = [p])
    (hproto : p.protocol = "TCP")
    (hep : w.endpointsWait = Except.ok b)
    (hping : env.pingResult "None" p.port = none) :
    handleCreateSvcModel env w svc = (SvcOutcome.skipped, [("None", p.port)]) := by
  have hloop : portsLoop env svc svc.spec.ports []
      = Except.error (ProbeExit.pingFailed [("None", p.port)]) := by
    rw [hports]
    simp [portsLoop, switchPortTargets, pingList, hty, hips, hproto, hping]
  simp only [handleCreateSvcModel, hty, hep, hloop]
  simp

/-- C3 witness: the amended statement at a concrete headless service. -/
theorem handleCreateSvc_headless_witness :
    handleCreateSvcModel ⟨"10.1.1.1", 3, fun _ _ => none⟩
        ⟨Except.ok 0, Except.ok 2⟩
        ⟨"uid-3b", "headless-b", "ns-3b", 5,
          ⟨"ClusterIP", "None", ["None"], [⟨"TCP", 9090, 0⟩]⟩, []⟩
      = (SvcOutcome.skipped, [("None", 9090)]) :=
  handleCreateSvc_headless _ _ _ ⟨"TCP", 9090, 0⟩ 2 rfl rfl rfl rfl rfl rfl rfl

/--
C5 counterexample: a ClusterIP service with two cluster IPs whose probes take
1 and 2 time units. The recorded `ReadyLatency` is 3 — the time until ALL
probes finished — while the time of the first successful TCP connect minus
`endpointsReadyTs` is 1; the two differ, so the claim is false.
-/
theorem readyLatency_first_connect_counterexample :
    (handleCreateSvcModel
        ⟨"192.168.0.9", 0, fun ip _ => if ip = "10.96.0.1" then some 1 else some 2⟩
        ⟨Except.ok 0, Except.ok 0⟩
        ⟨"uid-5", "svc-5", "ns-5", 0,
          ⟨"ClusterIP", "10.96.0.1", ["10.96.0.1", "10.96.0.2"], [⟨"TCP", 80, 0⟩]⟩,
          []⟩).1
      = SvcOutcome.recorded ⟨0, 0, 3, svcLatencyMetric, "ns-5", "svc-5", "ClusterIP"⟩
    ∧ firstConnectElapsed
        ⟨"192.168.0.9", 0, fun ip _ => if ip = "10.96.0.1" then some 1 else some 2⟩
        ⟨"uid-5", "svc-5", "ns-5", 0,
          ⟨"ClusterIP", "10.96.0.1", ["10.96.0.1", "10.96.0.2"], [⟨"TCP", 80, 0⟩]⟩,
          []⟩
      = some 1
    ∧ (3 : Nat) ≠ 1 := by
  refine ⟨rfl, rfl, by decide⟩

/--
C5 (amended): the recorded `ReadyLatency` is the elapsed time from
`endpointsReadyTs` until the probes of ALL TCP ports and targets completed:
the checker-creation time plus the total connect time `d` of the whole ports
loop (not the time of the first successful connect).
-/
theorem readyLatency_total (env : PingEnv) (w : WaitEnv) (svc : Service)
    (d : Nat) (atts : List (String × Int)) (a b : Nat)
    (h1 : (if svc.spec.type = "LoadBalancer" then w.ingressWait else Except.ok 0)
        = Except.ok a)
    (h2 : w.endpointsWait = Except.ok b)
    (hp : portsLoop env svc svc.spec.ports [] = Except.ok (d, atts)) :
    handleCreateSvcModel env w svc =
      (SvcOutcome.recorded
        { timestamp := svc.creationTimestamp
          ipAssignedLatency := a
          readyLatency := env.checkerDur + d
          metricName := svcLatencyMetric
          ns := svc.ns
          name := svc.name
          serviceType := svc.spec.type }, atts) := by
  simp only [handleCreateSvcModel, h1, h2, hp]

/-- C5 witness: the amended statement at a concrete single-target service. -/
theorem readyLatency_total_witness :
    handleCreateSvcModel ⟨"192.168.0.9", 2, fun _ _ => some 5⟩
        ⟨Except.ok 0, Except.ok 1⟩
        ⟨"uid-5b", "svc-5b", "ns-5b", 11,
          ⟨"ClusterIP", "10.96.0.3", ["10.96.0.3"], [⟨"TCP", 443, 0⟩]⟩, []⟩
      = (SvcOutcome.recorded
          ⟨11, 0, 7, svcLatencyMetric, "ns-5b", "svc-5b", "ClusterIP"⟩,
        [("10.96.0.3", 443)]) :=
  readyLatency_total _ _ _ 5 [("10.96.0.3", 443)] 0 1 rfl rfl rfl

theorem storeMetric_any_iff (m : List (String × SvcMetric)) (uid : String) :
    m.any (fun p => decide (p.1 = uid)) = true ↔ uid ∈ m.map Prod.fst := by
  simp [List.any_eq_true, List.mem_map]

theorem replaceEntry_keys (m : List (String × SvcMetric)) (uid : String)
    (v : SvcMetric) :
    (m.map (fun p => if p.1 = uid then (p.1, v) else p)).map Prod.fst
      = m.map Prod.fst := by
  induction m with
  | nil => rfl
  | cons p ps ih => by_cases hp : p.1 = uid <;> simp [hp, ih]

theorem lookupKey_replaceEntry (m : List (String × SvcMetric)) (uid : String)
    (v : SvcMetric) (h : uid ∈ m.map Prod.fst) :
    lookupKey (m.map (fun p => if p.1 = uid then (p.1, v) else p)) uid
      = some v := by
  induction m with
  | nil => simp at h
  | cons p ps ih =>
    by_cases hp : p.1 = uid
    · simp [lookupKey, hp]
    · have hmem : uid ∈ ps.map Prod.fst := by
        simp only [List.map_cons, List.mem_cons] at h
        rcases h with h1 | h1
        · exact absurd h1.symm hp
        · exact h1
      simp [lookupKey, hp, ih hmem]

theorem storeMetric_nodup (m : List (String × SvcMetric)) (uid : String)
    (v : SvcMetric) (h : (m.map Prod.fst).Nodup) :
    ((storeMetric m uid v).map Prod.fst).Nodup := by
  unfold storeMetric
  by_cases hc : m.any (fun p => decide (p.1 = uid)) = true
  · rw [if_pos hc, replaceEntry_keys]; exact h
  · rw [if_neg hc]
    have hnot : uid ∉ m.map Prod.fst := fun hm =>
      hc ((storeMetric_any_iff m uid).mpr hm)
    simp only [List.map_append, List.map_cons, List.map_nil]
    refine List.Nodup.append h (List.nodup_singleton uid) ?_
    intro a ha hb
    simp only [List.mem_singleton] at hb
    rw [hb] at ha
    exact hnot ha

theorem storeAll_nodup (ops : List (Service × SvcMetric)) :
    ∀ init : List (String × SvcMetric), (init.map Prod.fst).Nodup →
      ((storeAll init ops).map Prod.fst).Nodup := by
  induction ops with
  | nil => intro init h; exact h
  | cons p ps ih =>
    intro init h
    exact ih _ (storeMetric_nodup init p.1.uid p.2 h)

/--
C4: samples are keyed by the service's uid. Storing a sample under a uid that
already has an entry keeps the map's size and key set and makes the lookup of
that uid return the new sample (replace, never append); and starting from a
map with pairwise-distinct keys, any sequence of completed `handleCreateSvc`
stores leaves the keys pairwise distinct — at most one sample per uid.
-/
theorem metrics_map_one_sample_per_uid (m : List (String × SvcMetric))
    (uid : String) (v : SvcMetric) (init : List (String × SvcMetric))
    (ops : List (Service × SvcMetric))
    (hm : uid ∈ m.map Prod.fst) (hinit : (init.map Prod.fst).Nodup) :
    (storeMetric m uid v).length = m.length
    ∧ (storeMetric m uid v).map Prod.fst = m.map Prod.fst
    ∧ lookupKey (storeMetric m uid v) uid = some v
    ∧ ((storeAll init ops).map Prod.fst).Nodup := by
  have hc : m.any (fun p => decide (p.1 = uid)) = true :=
    (storeMetric_any_iff m uid).mpr hm
  refine ⟨?_, ?_, ?_, storeAll_nodup ops init hinit⟩
  · rw [storeMetric, if_pos hc]; exact List.length_map m _
  · rw [storeMetric, if_pos hc]; exact replaceEntry_keys m uid v
  · rw [storeMetric, if_pos hc]; exact lookupKey_replaceEntry m uid v hm

/--
C4 witness: storing twice under the same uid replaces the entry; the map
built from two completions of the same service has a single, distinct key.
-/
theorem metrics_map_one_sample_per_uid_witness :
    (storeMetric [("u1", sampleMetric 1)] "u1" (sampleMetric 2)).length
        = [("u1", sampleMetric 1)].length
    ∧ (storeMetric [("u1", sampleMetric 1)] "u1" (sampleMetric 2)).map Prod.fst
        = [("u1", sampleMetric 1)].map Prod.fst
    ∧ lookupKey (storeMetric [("u1", sampleMetric 1)] "u1" (sampleMetric 2)) "u1"
        = some (sampleMetric 2)
    ∧ ((storeAll []
          [(sampleService "u1", sampleMetric 1),
            (sampleService "u1", sampleMetric 2)]).map Prod.fst).Nodup :=
  metrics_map_one_sample_per_uid _ "u1" _ _ _ (by decide) (by decide)

theorem except_isOk_map {ε α β : Type} (f : α → β) (e : Except ε α) :
    (e.map f).isOk = e.isOk := by
  cases e <;> rfl

theorem executeTemplate_zero_ok (d : List (String × String)) :
    ∀ nodes, (executeTemplate templateOption.MissingKeyZero d nodes).isOk = true := by
  intro nodes
  induction nodes with
  | nil => rfl
  | cons n rest ih =>
    cases n with
    | text s => simp [executeTemplate, except_isOk_map, ih]
    | field k =>
      cases hl : lookupKey d k with
      | some v => simp [executeTemplate, hl, except_isOk_map, ih]
      | none => simp [executeTemplate, hl, except_isOk_map, ih]

theorem executeTemplate_strict_missing (d : List (String × String)) (k : String) :
    ∀ nodes, TemplateNode.field k ∈ nodes → lookupKey d k = none →
      (executeTemplate templateOption.MissingKeyError d nodes).isOk = false := by
  intro nodes
  induction nodes with
  | nil => intro h _; simp at h
  | cons n rest ih =>
    intro hmem hnone
    cases n with
    | text s =>
      have hr : TemplateNode.field k ∈ rest := by
        rcases List.mem_cons.mp hmem with h1 | h1
        · cases h1
        · exact h1
      simp [executeTemplate, except_isOk_map, ih hr hnone]
    | field kp =>
      cases hl : lookupKey d kp with
      | none => simp [executeTemplate, hl, Except.isOk, Except.toBool]
      | some v =>
        have hr : TemplateNode.field k ∈ rest := by
          rcases List.mem_cons.mp hmem with h1 | h1
          · injection h1 with h2
            rw [h2, hl] at hnone
            cases hnone
          · exact h1
        simp [executeTemplate, hl, except_isOk_map, ih hr hnone]

/--
C7: rendering fails exactly when parsing fails or execution (substitution)
fails; under the strict policy (`missingkey=error`) a parsed template that
references a key absent from the data fails to render, while under the zero
policy (`missingkey=zero`) every parsed template renders successfully, with
missing keys substituted by the zero value.
-/
theorem renderTemplate_errors (o : String) (d : List (String × String))
    (p : templateOption) :
    ((RenderTemplate o d p).isOk = false ↔
      (parseTemplate o).isOk = false ∨
        ∃ t, parseTemplate o = Except.ok t ∧ (executeTemplate p d t).isOk = false)
    ∧ (∀ t k, parseTemplate o = Except.ok t → TemplateNode.field k ∈ t →
        lookupKey d k = none →
        (RenderTemplate o d templateOption.MissingKeyError).isOk = false)
    ∧ (∀ t, parseTemplate o = Except.ok t →
        (RenderTemplate o d templateOption.MissingKeyZero).isOk = true) := by
  refine ⟨?_, ?_, ?_⟩
  · cases hpt : parseTemplate o with
    | error e =>
      simp [RenderTemplate, hpt, Except.isOk, Except.toBool]
    | ok t =>
      cases hex : executeTemplate p d t with
      | error e =>
        simp [RenderTemplate, hpt, hex, Except.isOk, Except.toBool]
      | ok r =>
        simp only [RenderTemplate, hpt, hex]
        constructor
        · intro h; cases h
        · intro h
          rcases h with h | ⟨t2, ht2, hex2⟩
          · simp [Except.isOk, Except.toBool] at h
          · injection ht2 with ht2
            rw [← ht2, hex] at hex2
            simp [Except.isOk, Except.toBool] at hex2
  · intro t k hpt hmem hnone
    have hex := executeTemplate_strict_missing d k t hmem hnone
    cases hex2 : executeTemplate templateOption.MissingKeyError d t with
    | error e => simp [RenderTemplate, hpt, hex2, Except.isOk, Except.toBool]
    | ok r => rw [hex2] at hex; simp [Except.isOk, Except.toBool] at hex
  · intro t hpt
    have hex := executeTemplate_zero_ok d t
    cases hex2 : executeTemplate templateOption.MissingKeyZero d t with
    | error e => rw [hex2] at hex; simp [Except.isOk, Except.toBool] at hex
    | ok r => simp [RenderTemplate, hpt, hex2, Except.isOk, Except.toBool]

/--
C7 witness: the template `a\x7b\x7b .X \x7d\x7db` with empty data fails under
the strict policy and renders under the zero policy.
-/
theorem renderTemplate_errors_witness :
    (RenderTemplate "a\x7b\x7b .X \x7d\x7db" [] templateOption.MissingKeyError).isOk
        = false
    ∧ (RenderTemplate "a\x7b\x7b .X \x7d\x7db" [] templateOption.MissingKeyZero).isOk
        = true :=
  ⟨(renderTemplate_errors "a\x7b\x7b .X \x7d\x7db" [] templateOption.MissingKeyError).2.1
      [TemplateNode.text "a", TemplateNode.field "X", TemplateNode.text "b"] "X"
      rfl (by decide) rfl,
    (renderTemplate_errors "a\x7b\x7b .X \x7d\x7db" [] templateOption.MissingKeyZero).2.2
      [TemplateNode.text "a", TemplateNode.field "X", TemplateNode.text "b"] rfl⟩

/--
C8: `RenderTemplate` is deterministic — two invocations on equal template
documents, equal input data and equal missing-key options produce identical
output (the model contains no time-based helper, matching the claim's
carve-out).
-/
theorem renderTemplate_deterministic (o₁ o₂ : String)
    (d₁ d₂ : List (String × String)) (p₁ p₂ : templateOption)
    (ho : o₁ = o₂) (hd : d₁ = d₂) (hp : p₁ = p₂) :
    RenderTemplate o₁ d₁ p₁ = RenderTemplate o₂ d₂ p₂ := by
  rw [ho, hd, hp]

/-- C8 witness: determinism at a concrete template, data and option. -/
theorem renderTemplate_deterministic_witness :
    RenderTemplate "a\x7b\x7b .X \x7d\x7db" [("X", "1")] templateOption.MissingKeyError
        = RenderTemplate "a\x7b\x7b .X \x7d\x7db" [("X", "1")] templateOption.MissingKeyError
    ∧ RenderTemplate "a\x7b\x7b .X \x7d\x7db" [("X", "1")] templateOption.MissingKeyError
        = Except.ok "a1b" :=
  ⟨renderTemplate_deterministic _ _ _ _ _ _ rfl rfl rfl, rfl⟩

/--
C9: when the indexer's `Index` call fails, `(*serviceLatency).index` and
`IndexJobSummary` log the error at error level (never fatally) and return
normally — the measurement state is unchanged and no error is propagated.
-/
theorem indexing_error_logged_nonfatal
    (indexer : List String → String → Except String String)
    (s : ServiceLatencyState) (jobSummaries : List String) :
    (serviceLatencyIndex indexer s).1 = s
    ∧ (∀ l ∈ (serviceLatencyIndex indexer s).2, l.level ≠ LogLevel.fatal)
    ∧ (∀ e, indexer s.latencyQuantiles svcLatencyQuantilesMeasurement
          = Except.error e →
        LogEntry.mk LogLevel.error e ∈ (serviceLatencyIndex indexer s).2)
    ∧ (∀ l ∈ IndexJobSummary jobSummaries indexer, l.level ≠ LogLevel.fatal)
    ∧ (∀ e, indexer jobSummaries jobSummaryMetric = Except.error e →
        LogEntry.mk LogLevel.error e ∈ IndexJobSummary jobSummaries indexer) := by
  refine ⟨rfl, ?_, ?_, ?_, ?_⟩
  · intro l hl
    simp only [serviceLatencyIndex, List.mem_map] at hl
    rcases hl with ⟨q, _, hq2⟩
    rw [← hq2]
    cases hI : indexer q.2 q.1 <;> simp [hI]
  · intro e he
    by_cases hq : s.quantilesOnly <;> simp [serviceLatencyIndex, hq, he]
  · intro l hl
    simp only [IndexJobSummary, List.mem_cons] at hl
    rcases hl with h | hl
    · rw [h]; simp
    · revert hl
      cases hI : indexer jobSummaries jobSummaryMetric with
      | error e =>
        intro hl
        simp only [List.mem_singleton] at hl
        rw [hl]; simp
      | ok r =>
        intro hl
        simp only [List.mem_singleton] at hl
        rw [hl]; simp
  · intro e he
    simp [IndexJobSummary, he]

/--
C9 witness: an always-failing indexer leaves the state unchanged and its
error appears in the logs of both functions at error level.
-/
theorem indexing_error_logged_nonfatal_witness :
    (serviceLatencyIndex (fun _ _ => Except.error "boom")
        ⟨["d1"], ["q1"], false⟩).1 = ⟨["d1"], ["q1"], false⟩
    ∧ LogEntry.mk LogLevel.error "boom"
        ∈ (serviceLatencyIndex (fun _ _ => Except.error "boom")
            ⟨["d1"], ["q1"], false⟩).2
    ∧ LogEntry.mk LogLevel.error "boom"
        ∈ IndexJobSummary ["j1"] (fun _ _ => Except.error "boom") :=
  ⟨(indexing_error_logged_nonfatal _ ⟨["d1"], ["q1"], false⟩ ["j1"]).1,
    (indexing_error_logged_nonfatal _ ⟨["d1"], ["q1"], false⟩ ["j1"]).2.2.1 "boom" rfl,
    (indexing_error_logged_nonfatal _ ⟨["d1"], ["q1"], false⟩ ["j1"]).2.2.2.2 "boom" rfl⟩

end KubeBurner
